import Mathlib

/-!
Shallow embedding of the sol2uml diagram assembly engine.

The embedding covers the class data model (`umlClass.ts`, modelled from the
spec since only its importers are available), the dot renderer
(`src/ts/dotGenerator.ts`), the association resolver and render pipeline
(`src/ts/converter.ts`).  JavaScript strings become Lean `String`s, in-place
`Array.prototype.sort` (stable in Node) becomes `List.mergeSort`, the
process-wide `subGraphCount` becomes an explicit `Nat` threaded through the
renderer, and the asynchronous `fs.writeFile` callbacks are modelled with an
explicit outcome function for the file system.
-/

set_option autoImplicit false

/-- Modelled from the spec: `stereotype`: one of \x7bNone, Abstract, Interface,
Library\x7d (umlClass.ts is not under src/).  `None` also stands for an
undefined stereotype, which the source treats identically (both are falsy and
compare unequal to each named stereotype). -/
inductive ClassStereotype where
  | None
  | Abstract
  | Interface
  | Library
deriving DecidableEq

/-- Modelled from the spec: `visibility` is one of \x7bPrivate, Internal, External,
Public, None\x7d.  `None` also stands for an absent visibility, which the source
treats identically (`!attribute.visibility`). -/
inductive Visibility where
  | None
  | Public
  | External
  | Internal
  | Private
deriving DecidableEq

/-- Modelled from the spec: `operatorStereotype` is one of \x7bNone, Event,
Fallback, Modifier, Abstract, Payable\x7d. -/
inductive OperatorStereotype where
  | None
  | Event
  | Fallback
  | Modifier
  | Abstract
  | Payable
deriving DecidableEq

/-- Modelled from the spec: the numeric enum ordinal of an operator stereotype,
in declaration order; the source sorts operators by `b.stereotype - a.stereotype`
and tests `operator.stereotype > 0`. -/
def OperatorStereotype.ordinal : OperatorStereotype → Nat
  | .None => 0
  | .Event => 1
  | .Fallback => 2
  | .Modifier => 3
  | .Abstract => 4
  | .Payable => 5

/-- Modelled from the spec: `referenceType` of an association is Storage or
Memory. -/
inductive ReferenceType where
  | Storage
  | Memory
deriving DecidableEq

/-- Modelled from the spec: an operator parameter `\x7bname (nullable), type\x7d`.
An absent name is `none` (the source tests `parameter.name === null`). -/
structure Parameter where
  name : Option String
  type : String
deriving DecidableEq

/-- Modelled from the spec: an attribute `\x7bname, type, visibility\x7d`. -/
structure Attribute where
  name : String
  type : String
  visibility : Visibility
deriving DecidableEq

/-- Modelled from the spec: an operator
`\x7bname, parameters, returnParameters, visibility, operatorStereotype\x7d`;
the source accesses the stereotype as `operator.stereotype`. -/
structure Operator where
  name : String
  parameters : List Parameter
  returnParameters : List Parameter
  visibility : Visibility
  stereotype : OperatorStereotype
deriving DecidableEq

/-- Modelled from the spec: an association
`\x7btargetClassName, referenceType, realization\x7d`; the source reads the target
name as `association.targetUmlClassName`. -/
structure Association where
  referenceType : ReferenceType
  targetUmlClassName : String
  realization : Bool
deriving DecidableEq

/-- Modelled from the spec: one ClassEntity.  `structs` and `enums` are the
name-keyed mappings in `Object.keys` (insertion) order; `associations` is the
`Object.values` list of the association mapping; `id` is the unique graph-node
identifier interpolated into the dot text. -/
structure UmlClass where
  id : String
  name : String
  codePath : String
  importedPaths : List String
  stereotype : ClassStereotype
  attributes : List Attribute
  operators : List Operator
  structs : List (String × List Attribute)
  enums : List (String × List String)
  associations : List Association
deriving DecidableEq

/-- Embedding of `ClassOptions` (dotGenerator.ts lines 12-19); absent fields of
the TS interface are `false`. -/
structure ClassOptions where
  hideAttributes : Bool := false
  hideOperators : Bool := false
  hideStructs : Bool := false
  hideEnums : Bool := false
  hideLibraries : Bool := false
  hideInterfaces : Bool := false
deriving DecidableEq

/-! ### Decimal rendering of counters

JavaScript template interpolation of a number (`$\x7bsubGraphCount++\x7d`) renders
its decimal digits.  We model it with `jsNatToString`, whose injectivity is
proved below via an explicit parsing inverse. -/

/-- One decimal digit character, for `jsNatToString`. -/
def decimalDigitChar : Nat → Char
  | 0 => '0'
  | 1 => '1'
  | 2 => '2'
  | 3 => '3'
  | 4 => '4'
  | 5 => '5'
  | 6 => '6'
  | 7 => '7'
  | 8 => '8'
  | 9 => '9'
  | _ => '*'

/-- Little-endian list of decimal digits of a positive number (empty for 0). -/
def decimalDigitsRev : Nat → List Nat
  | 0 => []
  | n + 1 => (n + 1) % 10 :: decimalDigitsRev ((n + 1) / 10)
decreasing_by exact Nat.div_lt_self (Nat.succ_pos n) (by omega)

/-- Model of JavaScript number-to-string conversion for natural numbers. -/
def jsNatToString (n : Nat) : String :=
  if n = 0 then "0"
  else String.mk (((decimalDigitsRev n).map decimalDigitChar).reverse)

/-! ### dotGenerator.ts -/

/-- Embedding of `dotClassTitle` (dotGenerator.ts lines 59-77). -/
def dotClassTitle (umlClass : UmlClass) : String :=
  match umlClass.stereotype with
  | ClassStereotype.Abstract => "𝐀𝐛𝐬𝐭𝐫𝐚𝐜𝐭 " ++ umlClass.name
  | ClassStereotype.Interface => "𝐈𝐧𝐭𝐞𝐫𝐟𝐚𝐜𝐞 " ++ umlClass.name
  | ClassStereotype.Library => "𝐋𝐢𝐛𝐫𝐚𝐫𝐲 " ++ umlClass.name
  | ClassStereotype.None => umlClass.name

/-- The visibility-group membership test applied to each attribute by
`dotAttributeVisibilities` (dotGenerator.ts lines 87-113): the chain of
`vizGroup === ... && attribute.visibility === ...` conditions.  `Visibility.None`
covers both `Visibility.None` and an absent visibility
(`!attribute.visibility`). -/
def attributeInVizGroup (vizGroup : String) (attr : Attribute) : Bool :=
  (vizGroup == "Private" && attr.visibility == Visibility.Private) ||
  (vizGroup == "Internal" && attr.visibility == Visibility.Internal) ||
  (vizGroup == "External" && attr.visibility == Visibility.External) ||
  (vizGroup == "Public" &&
    (attr.visibility == Visibility.Public ||
      attr.visibility == Visibility.None))

/-- Embedding of `dotAttributes` (dotGenerator.ts lines 121-134). -/
def dotAttributes (vizGroup : String) (attributes : List Attribute) : String :=
  if attributes.isEmpty then ""
  else
    attributes.foldl
      (fun dotString attr =>
        dotString ++ "\\ \\ \\ " ++ attr.name ++ ": " ++ attr.type ++ "\\l")
      (vizGroup ++ ":\\l")

/-- Embedding of `dotAttributeVisibilities` (dotGenerator.ts lines 79-119): the
per-group `attributes.push` loop is the filter by `attributeInVizGroup`. -/
def dotAttributeVisibilities (umlClass : UmlClass) : String :=
  ["Private", "Internal", "External", "Public"].foldl
    (fun dotString vizGroup =>
      dotString ++
        dotAttributes vizGroup
          (umlClass.attributes.filter (attributeInVizGroup vizGroup)))
    "| "

/-- The visibility-group membership test applied to each operator by
`dotOperatorVisibilities` (dotGenerator.ts lines 144-169). -/
def operatorInVizGroup (vizGroup : String) (operator : Operator) : Bool :=
  (vizGroup == "Private" && operator.visibility == Visibility.Private) ||
  (vizGroup == "Internal" && operator.visibility == Visibility.Internal) ||
  (vizGroup == "External" && operator.visibility == Visibility.External) ||
  (vizGroup == "Public" &&
    (operator.visibility == Visibility.Public ||
      operator.visibility == Visibility.None))

/-- Embedding of `dotOperatorStereotype` (dotGenerator.ts lines 216-245). -/
def dotOperatorStereotype (umlClass : UmlClass)
    (operatorStereotype : OperatorStereotype) : String :=
  (match operatorStereotype with
   | OperatorStereotype.Event => "𝙚𝙫𝙚𝙣𝙩"
   | OperatorStereotype.Fallback => "𝙛𝙖𝙡𝙡𝙗𝙖𝙘𝙠"
   | OperatorStereotype.Modifier => "𝙢𝙤𝙙𝙞𝙛𝙞𝙚𝙧"
   | OperatorStereotype.Abstract =>
     if umlClass.stereotype == ClassStereotype.Abstract then "𝙖𝙗𝙨𝙩𝙧𝙖𝙘𝙩" else ""
   | OperatorStereotype.Payable => "𝙥𝙖𝙮𝙖𝙗𝙡𝙚"
   | OperatorStereotype.None => "") ++ " "

/-- The general parenthesized, comma-joined parameter list of `dotParameters`
(dotGenerator.ts lines 259-276). -/
def dotParametersList (parameters : List Parameter) : String :=
  "(" ++
    String.intercalate ", "
      (parameters.map fun parameter =>
        match parameter.name with
        | none => parameter.type
        | some n => n ++ ": " ++ parameter.type) ++
    ")"

/-- Embedding of `dotParameters` (dotGenerator.ts lines 247-277). -/
def dotParameters (parameters : List Parameter) (returnParams : Bool) : String :=
  match parameters with
  | [parameter] =>
    match parameter.name with
    | none => if returnParams then parameter.type else "(" ++ parameter.type ++ ")"
    | some _ => dotParametersList parameters
  | _ => dotParametersList parameters

/-- One line of the operator section: the loop body of `dotOperators`
(dotGenerator.ts lines 195-211). -/
def dotOperatorLine (umlClass : UmlClass) (operator : Operator) : String :=
  "\\ \\ \\ \\ " ++
  (if operator.stereotype.ordinal > 0 then
    dotOperatorStereotype umlClass operator.stereotype
  else "") ++
  operator.name ++
  dotParameters operator.parameters false ++
  (if operator.returnParameters.length > 0 then
    ": " ++ dotParameters operator.returnParameters true
  else "") ++
  "\\l"

/-- The stable sort `operators.sort((a, b) => b.stereotype - a.stereotype)` of
`dotOperators` (dotGenerator.ts lines 191-193): descending stereotype ordinal,
ties keeping their original relative order (Node's `Array.prototype.sort` is
stable). -/
def sortOperatorsByStereotype (operators : List Operator) : List Operator :=
  operators.mergeSort fun a b =>
    decide (b.stereotype.ordinal ≤ a.stereotype.ordinal)

/-- Embedding of `dotOperators` (dotGenerator.ts lines 178-214). -/
def dotOperators (umlClass : UmlClass) (vizGroup : String)
    (operators : List Operator) : String :=
  if operators.isEmpty then ""
  else
    (sortOperatorsByStereotype operators).foldl
      (fun dotString operator => dotString ++ dotOperatorLine umlClass operator)
      (vizGroup ++ ":\\l")

/-- Embedding of `dotOperatorVisibilities` (dotGenerator.ts lines 136-176). -/
def dotOperatorVisibilities (umlClass : UmlClass) : String :=
  ["Private", "Internal", "External", "Public"].foldl
    (fun dotString vizGroup =>
      dotString ++
        dotOperators umlClass vizGroup
          (umlClass.operators.filter (operatorInVizGroup vizGroup)))
    "| "

/-- Embedding of `dotStructs` (dotGenerator.ts lines 279-300); the running
`structCount` is the second component of the fold state. -/
def dotStructs (umlClass : UmlClass) : String :=
  (umlClass.structs.foldl
    (fun (acc : String × Nat) entry =>
      let structId := umlClass.id ++ "struct" ++ jsNatToString acc.2
      (acc.1 ++
        "\n\"" ++ structId ++ "\" [label=\"\x7b\\<\\<struct\\>\\>\\n" ++ entry.1 ++ "|" ++
        String.join
          (entry.2.map fun attr =>
            attr.name ++ ": " ++ attr.type ++ "\\l") ++
        "\x7d\"]" ++
        "\n\"" ++ structId ++ "\" -> " ++ umlClass.id ++
        " [arrowhead=diamond, weight=3]",
       acc.2 + 1))
    ("", 0)).1

/-- Embedding of `dotEnums` (dotGenerator.ts lines 302-323); the running
`enumCount` is the second component of the fold state. -/
def dotEnums (umlClass : UmlClass) : String :=
  (umlClass.enums.foldl
    (fun (acc : String × Nat) entry =>
      let enumId := umlClass.id ++ "enum" ++ jsNatToString acc.2
      (acc.1 ++
        "\n\"" ++ enumId ++ "\" [label=\"\x7b\\<\\<enum\\>\\>\\n" ++ entry.1 ++ "|" ++
        String.join (entry.2.map fun value => value ++ "\\l") ++
        "\x7d\"]" ++
        "\n\"" ++ enumId ++ "\" -> " ++ umlClass.id ++
        " [arrowhead=diamond, weight=3]",
       acc.2 + 1))
    ("", 0)).1

/-- Embedding of `dotUmlClass` (dotGenerator.ts lines 21-57). -/
def dotUmlClass (umlClass : UmlClass) (options : ClassOptions) : String :=
  if (options.hideLibraries && umlClass.stereotype == ClassStereotype.Library) ||
     (options.hideInterfaces && umlClass.stereotype == ClassStereotype.Interface) then
    ""
  else
    "\n" ++ umlClass.id ++ " [label=\"\x7b" ++ dotClassTitle umlClass ++
    (if options.hideAttributes then "" else dotAttributeVisibilities umlClass) ++
    (if options.hideOperators then "" else dotOperatorVisibilities umlClass) ++
    "\x7d\"]" ++
    (if options.hideStructs then "" else dotStructs umlClass) ++
    (if options.hideEnums then "" else dotEnums umlClass)

/-! ### converter.ts -/

/-- The backward scan of Node's posix `path.dirname`: starting at index `i`
with `matchedSlash` initially true, skip trailing slashes, then return the
index of the next slash (only indices at least 1 are examined). -/
def dirnameLoop (cs : List Char) : Nat → Bool → Option Nat
  | 0, _ => none
  | i + 1, matchedSlash =>
    if cs.getD (i + 1) ' ' = '/' then
      if matchedSlash then dirnameLoop cs i matchedSlash else some (i + 1)
    else dirnameLoop cs i false

/-- Model of Node's posix `path.dirname` on the character list of the path. -/
def dirnameList (cs : List Char) : List Char :=
  if cs.length = 0 then ['.']
  else
    let hasRoot := cs.getD 0 ' ' = '/'
    match dirnameLoop cs (cs.length - 1) true with
    | none => if hasRoot then ['/'] else ['.']
    | some e => if hasRoot ∧ e = 1 then ['/', '/'] else cs.take e

/-- Model of Node's posix `path.dirname`, used by `convertUmlClasses2Dot` on
each `codePath` (converter.ts line 90). -/
def dirname (p : String) : String :=
  String.mk (dirnameList p.toList)

/-- Embedding of `sortUmlClassesByCodePath` (converter.ts lines 129-139): a
stable sort by the comparator that orders by `codePath` (Node's
`Array.prototype.sort` is stable and sorts in place). -/
def sortUmlClassesByCodePath (umlClasses : List UmlClass) : List UmlClass :=
  umlClasses.mergeSort fun a b => decide (a.codePath ≤ b.codePath)

/-- Embedding of `getSubGraphName` (converter.ts lines 121-127) with the
process-wide `subGraphCount` made explicit; the caller increments the
counter. -/
def getSubGraphName (clusterFolders : Bool) (subGraphCount : Nat) : String :=
  if clusterFolders then " cluster_" ++ jsNatToString subGraphCount
  else " graph_" ++ jsNatToString subGraphCount

/-- The predicate of the `umlClasses.find` call in `addAssociationsToDot`
(converter.ts lines 154-162): the target has the association's class name, and
its `codePath` is imported by the source class or equal to the source class's
`codePath`. -/
def associationMatch (sourceUmlClass : UmlClass) (association : Association)
    (targetUmlClass : UmlClass) : Bool :=
  targetUmlClass.name == association.targetUmlClassName &&
  (sourceUmlClass.importedPaths.contains targetUmlClass.codePath ||
    sourceUmlClass.codePath == targetUmlClass.codePath)

/-- The `umlClasses.find` call of `addAssociationsToDot` (converter.ts lines
154-162): first match in list order. -/
def findAssociatedClass (umlClasses : List UmlClass) (sourceUmlClass : UmlClass)
    (association : Association) : Option UmlClass :=
  umlClasses.find? (associationMatch sourceUmlClass association)

/-- Embedding of `addAssociationToDot` (converter.ts lines 177-212). -/
def addAssociationToDot (sourceUmlClass targetUmlClass : UmlClass)
    (association : Association) (classOptions : ClassOptions) : String :=
  if (classOptions.hideLibraries &&
      targetUmlClass.stereotype == ClassStereotype.Library) ||
     (classOptions.hideInterfaces &&
      targetUmlClass.stereotype == ClassStereotype.Interface) then
    ""
  else
    let dotString := "\n" ++ sourceUmlClass.id ++ " -> " ++ targetUmlClass.id ++ " ["
    let dotString :=
      if association.referenceType == ReferenceType.Memory ||
         (association.realization &&
          targetUmlClass.stereotype == ClassStereotype.Interface) then
        dotString ++ "style=dashed, "
      else dotString
    let dotString :=
      if association.realization then
        let dotString := dotString ++ "arrowhead=empty, arrowsize=3, "
        if targetUmlClass.stereotype == ClassStereotype.None then
          dotString ++ "weight=4, "
        else dotString ++ "weight=3, "
      else dotString
    dotString ++ "]"

/-- The contribution of one association of one source class inside
`addAssociationsToDot` (converter.ts lines 150-171): the edge for the first
matching target class, or nothing when no class matches. -/
def associationDot (umlClasses : List UmlClass) (sourceUmlClass : UmlClass)
    (association : Association) (classOptions : ClassOptions) : String :=
  match findAssociatedClass umlClasses sourceUmlClass association with
  | some targetUmlClass =>
    addAssociationToDot sourceUmlClass targetUmlClass association classOptions
  | none => ""

/-- Embedding of `addAssociationsToDot` (converter.ts lines 141-175): the two
nested loops over classes and their associations. -/
def addAssociationsToDot (umlClasses : List UmlClass)
    (classOptions : ClassOptions) : String :=
  umlClasses.foldl
    (fun dotString sourceUmlClass =>
      sourceUmlClass.associations.foldl
        (fun dotString association =>
          dotString ++
            associationDot umlClasses sourceUmlClass association classOptions)
        dotString)
    ""

/-- The class loop of `convertUmlClasses2Dot` (converter.ts lines 88-109)
together with the trailing close of the last subgraph: recursion over the
sorted class list threading `currentCodeFolder` and `subGraphCount`.  A new
subgraph opens whenever the folder of the class differs from
`currentCodeFolder`; the previous subgraph (if any) is closed first, and the
close after the loop is the `[]` case. -/
def convertClassesBody (clusterFolders : Bool) (classOptions : ClassOptions) :
    List UmlClass → String → Nat → String × Nat
  | [], currentCodeFolder, subGraphCount =>
    (if currentCodeFolder ≠ "" then "\n\x7d" else "", subGraphCount)
  | umlClass :: rest, currentCodeFolder, subGraphCount =>
    let codeFolder := dirname umlClass.codePath
    if currentCodeFolder = codeFolder then
      let r := convertClassesBody clusterFolders classOptions rest
        currentCodeFolder subGraphCount
      (dotUmlClass umlClass classOptions ++ r.1, r.2)
    else
      let r := convertClassesBody clusterFolders classOptions rest
        codeFolder (subGraphCount + 1)
      ((if currentCodeFolder ≠ "" then "\n\x7d" else "") ++
        "\nsubgraph " ++ getSubGraphName clusterFolders subGraphCount ++
        " \x7b\nlabel=\"" ++ codeFolder ++ "\"" ++
        dotUmlClass umlClass classOptions ++ r.1,
       r.2)

/-- Embedding of `convertUmlClasses2Dot` (converter.ts lines 73-119).  The
process-wide `subGraphCount` is an explicit input and output.  Because the
source's `sortUmlClassesByCodePath` sorts the caller's array in place, the
`addAssociationsToDot` call on line 111 sees the sorted list. -/
def convertUmlClasses2Dot (umlClasses : List UmlClass) (clusterFolders : Bool)
    (classOptions : ClassOptions) (subGraphCount : Nat) : String × Nat :=
  let header :=
    "\ndigraph UmlClassDiagram \x7b\nrankdir=BT\ncolor=black\narrowhead=open\nnode [shape=record, style=filled, fillcolor=gray95]"
  let umlClassesSortedByCodePath := sortUmlClassesByCodePath umlClasses
  let r := convertClassesBody clusterFolders classOptions
    umlClassesSortedByCodePath "" subGraphCount
  (header ++ r.1 ++
    addAssociationsToDot umlClassesSortedByCodePath classOptions ++ "\n\x7d",
   r.2)

/-! ### The file-writing pipeline (converter.ts lines 19-62 and 226-269)

The external collaborators are modelled as the spec directs (section 9):
the file system is a function from file name and contents to an optional
error message (the `err` value Node passes to the `fs.writeFile` callback),
and the layout engine `Viz` is a function from dot text to svg text.  A
`VError` wrapping an inner error is modelled by the pair of its message and
its cause. -/

/-- Outcome function of the external `fs.writeFile`: `none` is a successful
write, `some err` the error passed to the callback. -/
def FileWriteOutcome : Type := String → String → Option String

/-- Model of a `VError` built from a cause and a message naming the file. -/
structure ModelVError where
  message : String
  cause : String
deriving DecidableEq

/-- Embedding of `writeDot` (converter.ts lines 226-236).  `fs.writeFile` is
asynchronous: its callback runs only after `writeDot` has returned, so the
`VError` thrown in the callback is an uncaught exception (second component),
not a value the caller of `writeDot` receives; the first component is what the
caller sees. -/
def writeDot (fs : FileWriteOutcome) (dot : String)
    (dotFilename : String := "classDiagram.dot") : Unit × Option ModelVError :=
  match fs dotFilename dot with
  | some err => ((), some ⟨"Failed to write Dot file to " ++ dotFilename, err⟩)
  | none => ((), none)

/-- Embedding of `writeSVG` (converter.ts lines 238-269) for the call sites
the claims exercise (output format svg or all, so the png-only filename
rewrite of lines 245-252 is not taken).  The returned promise rejects with
the wrapped error, modelled as `Except.error`. -/
def writeSVG (fs : FileWriteOutcome) (svg : String)
    (svgFilename : String) : Except ModelVError Unit :=
  match fs svgFilename svg with
  | some err =>
    Except.error ⟨"Failed to write SVG file to " ++ svgFilename, err⟩
  | none => Except.ok ()

/-- Embedding of `OutputFormats` (converter.ts line 17). -/
inductive OutputFormat where
  | svg
  | png
  | dot
  | all
deriving DecidableEq

/-- Caller-visible result of the export operation plus the uncaught exceptions
escaping from asynchronous callbacks. -/
structure ExportResult where
  returned : Except ModelVError Unit
  uncaught : List ModelVError

/-- Embedding of `generateFilesFromUmlClasses` (converter.ts lines 19-62) with
an explicit `outputFilename` (so the directory heuristic of lines 38-52 is
skipped) and the svg-to-png rasterisation of line 60 not modelled (the claims
concern the dot and svg file writes).  The source `await`s `writeSVG`, so a
rejected promise propagates to the caller; `writeDot` is called without
awaiting anything, so its callback error never reaches the caller. -/
def generateFilesFromUmlClasses (fs : FileWriteOutcome) (viz : String → String)
    (umlClasses : List UmlClass) (outputFormat : OutputFormat)
    (outputFilename : String) (clusterFolders : Bool)
    (classOptions : ClassOptions) : ExportResult :=
  let dot := (convertUmlClasses2Dot umlClasses clusterFolders classOptions 0).1
  let dotUncaught : List ModelVError :=
    if outputFormat = OutputFormat.dot ∨ outputFormat = OutputFormat.all then
      match (writeDot fs dot outputFilename).2 with
      | some e => [e]
      | none => []
    else []
  if outputFormat = OutputFormat.dot then
    ⟨Except.ok (), dotUncaught⟩
  else
    let svg := viz dot
    match writeSVG fs svg outputFilename with
    | Except.error e => ⟨Except.error e, dotUncaught⟩
    | Except.ok _ => ⟨Except.ok (), dotUncaught⟩

/-! ### Supporting lemmas -/

/-- Decimal value of a little-endian digit list: parsing inverse of
`decimalDigitsRev`. -/
def decimalValueRev : List Nat → Nat
  | [] => 0
  | d :: ds => d + 10 * decimalValueRev ds

/-- Numeric value of a decimal digit character: parsing inverse of
`decimalDigitChar`. -/
def decimalCharValue (c : Char) : Nat :=
  if c = '0' then 0 else if c = '1' then 1 else if c = '2' then 2
  else if c = '3' then 3 else if c = '4' then 4 else if c = '5' then 5
  else if c = '6' then 6 else if c = '7' then 7 else if c = '8' then 8
  else if c = '9' then 9 else 10

/-- Parsing inverse of `jsNatToString`. -/
def jsNatParse (s : String) : Nat :=
  decimalValueRev (s.data.reverse.map decimalCharValue)

theorem decimalValueRev_decimalDigitsRev (n : Nat) :
    decimalValueRev (decimalDigitsRev n) = n := by
  induction n using Nat.strong_induction_on with
  | _ n ih =>
    match n with
    | 0 => rw [decimalDigitsRev]; rfl
    | n + 1 =>
      rw [decimalDigitsRev]
      unfold decimalValueRev
      rw [ih ((n + 1) / 10) (Nat.div_lt_self (Nat.succ_pos n) (by omega))]
      omega

theorem decimalDigitsRev_lt_ten (n : Nat) : ∀ d ∈ decimalDigitsRev n, d < 10 := by
  induction n using Nat.strong_induction_on with
  | _ n ih =>
    match n with
    | 0 => intro d hd; rw [decimalDigitsRev] at hd; simp at hd
    | n + 1 =>
      intro d hd
      rw [decimalDigitsRev] at hd
      rcases List.mem_cons.mp hd with h | h
      · omega
      · exact ih ((n + 1) / 10) (Nat.div_lt_self (Nat.succ_pos n) (by omega)) d h

theorem decimalCharValue_decimalDigitChar {d : Nat} (hd : d < 10) :
    decimalCharValue (decimalDigitChar d) = d := by
  interval_cases d <;> rfl

theorem jsNatParse_jsNatToString (n : Nat) : jsNatParse (jsNatToString n) = n := by
  by_cases h : n = 0
  · subst h; rfl
  · unfold jsNatToString jsNatParse
    rw [if_neg h]
    show decimalValueRev
      ((((decimalDigitsRev n).map decimalDigitChar).reverse).reverse.map decimalCharValue) = n
    rw [List.reverse_reverse, List.map_map]
    have hmap : ((decimalDigitsRev n).map (decimalCharValue ∘ decimalDigitChar)) =
        decimalDigitsRev n := by
      rw [List.map_congr_left (g := fun d => d), List.map_id']
      intro d hd
      exact decimalCharValue_decimalDigitChar (decimalDigitsRev_lt_ten n d hd)
    rw [hmap, decimalValueRev_decimalDigitsRev]

theorem jsNatToString_injective : Function.Injective jsNatToString := by
  intro m n h
  have := congrArg jsNatParse h
  rwa [jsNatParse_jsNatToString, jsNatParse_jsNatToString] at this

theorem string_append_cancel_left {p s t : String} (h : p ++ s = p ++ t) :
    s = t := by
  apply String.ext
  have hd : p.data ++ s.data = p.data ++ t.data := by
    simpa using congrArg String.data h
  exact List.append_cancel_left hd

theorem getSubGraphName_injective (clusterFolders : Bool) {m n : Nat}
    (h : getSubGraphName clusterFolders m = getSubGraphName clusterFolders n) :
    m = n := by
  unfold getSubGraphName at h
  cases clusterFolders <;> simp only [Bool.false_eq_true, if_true, if_false,
    not_false_iff, ite_true, ite_false] at h <;>
    exact jsNatToString_injective (string_append_cancel_left h)

theorem dirnameLoop_one_le {cs : List Char} {e : Nat} :
    ∀ {i : Nat} {b : Bool}, dirnameLoop cs i b = some e → 1 ≤ e := by
  intro i
  induction i with
  | zero => intro b h; simp [dirnameLoop] at h
  | succ i ih =>
    intro b h
    rw [dirnameLoop] at h
    split at h
    · split at h
      · exact ih h
      · simp at h; omega
    · exact ih h

theorem dirnameList_ne_nil (cs : List Char) : dirnameList cs ≠ [] := by
  unfold dirnameList
  by_cases h : cs.length = 0
  · simp [h]
  · simp only [if_neg h]
    split
    · split <;> simp
    · next e hloop =>
      have he := dirnameLoop_one_le hloop
      split
      · simp
      · intro hcontra
        have hlen := congrArg List.length hcontra
        rw [List.length_take] at hlen
        simp only [List.length_nil] at hlen
        omega

theorem dirname_ne_empty (p : String) : dirname p ≠ "" := by
  unfold dirname
  intro h
  exact dirnameList_ne_nil p.toList (by simpa using congrArg String.data h)

theorem getSubGraphName_ne_of_ne (clusterFolders : Bool) {m n : Nat} (h : m ≠ n) :
    getSubGraphName clusterFolders m ≠ getSubGraphName clusterFolders n :=
  fun hc => h (getSubGraphName_injective clusterFolders hc)

/-- Concatenation of a list of strings (specification-level helper). -/
def joinStrings : List String → String
  | [] => ""
  | s :: rest => s ++ joinStrings rest

/-- The maximal consecutive runs of classes whose `codePath` lies in the same
folder: each run is the folder together with the classes of the run. -/
def folderRuns : List UmlClass → List (String × List UmlClass)
  | [] => []
  | umlClass :: rest =>
    let codeFolder := dirname umlClass.codePath
    (codeFolder,
      umlClass :: rest.takeWhile (fun d => dirname d.codePath == codeFolder)) ::
      folderRuns (rest.dropWhile (fun d => dirname d.codePath == codeFolder))
termination_by cs => cs.length
decreasing_by
  have := (List.dropWhile_sublist
    (l := rest) (fun d => dirname d.codePath == dirname umlClass.codePath)).length_le
  simp only [List.length_cons]
  omega

/-- The subgraph blocks the renderer emits: one block per folder run, opened
with the next counter value, labelled with the folder, holding the node text
of the run's classes, and closed. -/
def renderBlocks (clusterFolders : Bool) (classOptions : ClassOptions) :
    Nat → List (String × List UmlClass) → String
  | _, [] => ""
  | subGraphCount, (codeFolder, run) :: rest =>
    "\nsubgraph " ++ getSubGraphName clusterFolders subGraphCount ++
    " \x7b\nlabel=\"" ++ codeFolder ++ "\"" ++
    joinStrings (run.map (fun c => dotUmlClass c classOptions)) ++ "\n\x7d" ++
    renderBlocks clusterFolders classOptions (subGraphCount + 1) rest

theorem folderRuns_nil : folderRuns [] = [] := by
  rw [folderRuns]

theorem folderRuns_cons (c : UmlClass) (rest : List UmlClass) :
    folderRuns (c :: rest) =
      (dirname c.codePath,
        c :: rest.takeWhile (fun d => dirname d.codePath == dirname c.codePath)) ::
        folderRuns (rest.dropWhile (fun d => dirname d.codePath == dirname c.codePath)) := by
  rw [folderRuns]

theorem convertClassesBody_eq (clusterFolders : Bool) (classOptions : ClassOptions) :
    ∀ (cs : List UmlClass) (cur : String) (count : Nat),
    convertClassesBody clusterFolders classOptions cs cur count =
      (joinStrings ((cs.takeWhile (fun d => dirname d.codePath == cur)).map
          (fun c => dotUmlClass c classOptions)) ++
        ((if cur = "" then "" else "\n\x7d") ++
          renderBlocks clusterFolders classOptions count
            (folderRuns (cs.dropWhile (fun d => dirname d.codePath == cur)))),
       count +
         (folderRuns (cs.dropWhile (fun d => dirname d.codePath == cur))).length) := by
  intro cs
  induction cs with
  | nil =>
    intro cur count
    by_cases hcur : cur = "" <;>
      simp [convertClassesBody, folderRuns_nil, renderBlocks, joinStrings, hcur]
  | cons c rest ih =>
    intro cur count
    by_cases hc : cur = dirname c.codePath
    · have hcur : cur ≠ "" := by rw [hc]; exact dirname_ne_empty _
      have hpred : (dirname c.codePath == cur) = true := by
        rw [hc]; exact beq_self_eq_true _
      simp only [convertClassesBody, if_pos hc, List.takeWhile_cons, hpred,
        List.dropWhile_cons, ite_true, List.map_cons, joinStrings, ih cur count,
        if_neg hcur, String.append_assoc]
    · have hpred : (dirname c.codePath == cur) = false := by
        simp only [beq_eq_false_iff_ne, ne_eq]
        intro hcontra; exact hc hcontra.symm
      have hf : dirname c.codePath ≠ "" := dirname_ne_empty _
      simp only [List.dropWhile_cons, List.takeWhile_cons, hpred,
        Bool.false_eq_true, if_false]
      rw [folderRuns_cons]
      simp only [convertClassesBody, if_neg hc, List.map_nil, joinStrings,
        renderBlocks, ih (dirname c.codePath) (count + 1), if_neg hf,
        List.length_cons, String.append_assoc, String.empty_append]
      by_cases hcur : cur = "" <;>
        simp [hcur, String.append_assoc, String.empty_append] <;> omega

theorem folderRuns_flatten :
    ∀ cs : List UmlClass, ((folderRuns cs).map Prod.snd).flatten = cs := by
  intro cs
  induction cs using folderRuns.induct with
  | case1 => simp [folderRuns_nil]
  | case2 c rest codeFolder ih =>
    rw [folderRuns_cons]
    simp only [List.map_cons, List.flatten_cons, ih, List.cons_append]
    rw [List.takeWhile_append_dropWhile]

theorem folderRuns_runs :
    ∀ cs : List UmlClass, ∀ pr ∈ folderRuns cs,
      pr.2 ≠ [] ∧ ∀ u ∈ pr.2, dirname u.codePath = pr.1 := by
  intro cs
  induction cs using folderRuns.induct with
  | case1 => simp [folderRuns_nil]
  | case2 c rest codeFolder ih =>
    rw [folderRuns_cons]
    intro pr hpr
    rcases List.mem_cons.mp hpr with h | h
    · subst h
      refine ⟨by simp, ?_⟩
      intro u hu
      rcases List.mem_cons.mp hu with h | h
      · subst h; rfl
      · have := List.mem_takeWhile_imp h
        exact eq_of_beq this
    · exact ih pr h

theorem folderRuns_chain :
    ∀ cs : List UmlClass,
      (folderRuns cs).Chain' (fun a b => a.1 ≠ b.1) := by
  intro cs
  induction cs using folderRuns.induct with
  | case1 => simp [folderRuns_nil]
  | case2 c rest codeFolder ih =>
    rw [folderRuns_cons]
    apply List.Chain'.cons'
    · exact ih
    · intro b hb
      cases hdw : rest.dropWhile (fun d => dirname d.codePath == dirname c.codePath) with
      | nil => rw [hdw, folderRuns_nil] at hb; simp at hb
      | cons d rest' =>
        rw [hdw, folderRuns_cons] at hb
        simp only [List.head?_cons, Option.mem_def, Option.some.injEq] at hb
        subst hb
        have hd := List.head?_dropWhile_not
          (fun d => dirname d.codePath == dirname c.codePath) rest
        rw [hdw] at hd
        simp only [List.head?_cons] at hd
        simp only [beq_eq_false_iff_ne, ne_eq] at hd
        simp only [ne_eq]
        intro hcontra
        exact hd hcontra.symm


theorem codePath_le_trans (a b c : UmlClass)
    (hab : decide (a.codePath ≤ b.codePath) = true)
    (hbc : decide (b.codePath ≤ c.codePath) = true) :
    decide (a.codePath ≤ c.codePath) = true := by
  simp only [decide_eq_true_eq] at *
  exact le_trans hab hbc

theorem codePath_le_total (a b : UmlClass) :
    (decide (a.codePath ≤ b.codePath) || decide (b.codePath ≤ a.codePath)) = true := by
  simp only [Bool.or_eq_true, decide_eq_true_eq]
  exact le_total _ _

theorem sortUmlClassesByCodePath_pairwise (umlClasses : List UmlClass) :
    (sortUmlClassesByCodePath umlClasses).Pairwise
      (fun a b => a.codePath ≤ b.codePath) := by
  have h := @List.sorted_mergeSort UmlClass
    (fun a b : UmlClass => decide (a.codePath ≤ b.codePath))
    codePath_le_trans codePath_le_total umlClasses
  exact h.imp (fun hab => of_decide_eq_true hab)

theorem sortUmlClassesByCodePath_idem (umlClasses : List UmlClass) :
    sortUmlClassesByCodePath (sortUmlClassesByCodePath umlClasses) =
      sortUmlClassesByCodePath umlClasses := by
  unfold sortUmlClassesByCodePath
  exact List.mergeSort_of_sorted
    (List.sorted_mergeSort codePath_le_trans codePath_le_total umlClasses)

theorem mergeSort_filter_stable {α : Type} {le : α → α → Bool}
    (trans : ∀ a b c : α, le a b → le b c → le a c)
    (total : ∀ a b : α, le a b || le b a)
    (p : α → Bool) (l : List α)
    (tied : ∀ a b : α, p a = true → p b = true → le a b = true) :
    (l.mergeSort le).filter p = l.filter p := by
  have hpair : (l.filter p).Pairwise (fun a b => le a b = true) := by
    apply List.pairwise_of_forall_mem_list
    intro a ha b hb
    exact tied a b (List.of_mem_filter ha) (List.of_mem_filter hb)
  have hsub : List.Sublist (l.filter p) (l.mergeSort le) :=
    List.sublist_mergeSort trans total hpair (List.filter_sublist l)
  have hsub2 : List.Sublist (l.filter p) ((l.mergeSort le).filter p) := by
    have h2 := hsub.filter p
    rwa [List.filter_filter,
      List.filter_congr (q := p) (fun a _ => by cases p a <;> rfl)] at h2
  have hperm : ((l.mergeSort le).filter p).length = (l.filter p).length :=
    ((List.mergeSort_perm l le).filter p).length_eq
  exact (hsub2.eq_of_length hperm.symm).symm

theorem find?_append_first {α : Type} (p : α → Bool) (l₁ l₂ : List α) (t : α)
    (ht : p t = true) (h₁ : ∀ u ∈ l₁, p u = false) :
    (l₁ ++ t :: l₂).find? p = some t := by
  induction l₁ with
  | nil => simp [List.find?_cons, ht]
  | cons a l ih =>
    rw [List.cons_append, List.find?_cons_of_neg]
    · exact ih (fun u hu => h₁ u (List.mem_cons_of_mem a hu))
    · simp [h₁ a (List.mem_cons_self a l)]

theorem foldl_append_eq_joinStrings {α : Type} (f : α → String) :
    ∀ (l : List α) (init : String),
      l.foldl (fun acc x => acc ++ f x) init = init ++ joinStrings (l.map f) := by
  intro l
  induction l with
  | nil => intro init; simp [joinStrings]
  | cons x xs ih =>
    intro init
    simp only [List.foldl_cons, List.map_cons, joinStrings, ih,
      String.append_assoc]

theorem joinStrings_append : ∀ l₁ l₂ : List String,
    joinStrings (l₁ ++ l₂) = joinStrings l₁ ++ joinStrings l₂ := by
  intro l₁ l₂
  induction l₁ with
  | nil => simp [joinStrings]
  | cons x xs ih => simp [joinStrings, ih, String.append_assoc]

theorem addAssociationsToDot_join (cs : List UmlClass) (opts : ClassOptions) :
    addAssociationsToDot cs opts =
      joinStrings (cs.map (fun src =>
        joinStrings (src.associations.map
          (fun a => associationDot cs src a opts)))) := by
  unfold addAssociationsToDot
  have h : ∀ (l : List UmlClass) (init : String),
      l.foldl
        (fun dotString src =>
          src.associations.foldl
            (fun acc a => acc ++ associationDot cs src a opts) dotString)
        init =
      init ++ joinStrings (l.map fun src =>
        joinStrings (src.associations.map fun a => associationDot cs src a opts)) := by
    intro l
    induction l with
    | nil => intro init; simp [joinStrings]
    | cons x xs ih =>
      intro init
      rw [List.foldl_cons, foldl_append_eq_joinStrings, ih]
      simp [joinStrings, String.append_assoc]
  simpa using h cs ""

/-! ### The claims -/

/-- C2: for every entity list and render options, if `hideLibraries` is set
then a Library-stereotyped entity contributes no node text and no edge whose
target is that entity appears in the output, and symmetrically for
`hideInterfaces` and Interface-stereotyped entities. -/
theorem c2_hidden_stereotype_suppressed (opts : ClassOptions) (e s : UmlClass)
    (a : Association) (cs : List UmlClass) :
    (opts.hideLibraries = true → e.stereotype = ClassStereotype.Library →
      dotUmlClass e opts = "" ∧ addAssociationToDot s e a opts = "" ∧
      (findAssociatedClass cs s a = some e → associationDot cs s a opts = "")) ∧
    (opts.hideInterfaces = true → e.stereotype = ClassStereotype.Interface →
      dotUmlClass e opts = "" ∧ addAssociationToDot s e a opts = "" ∧
      (findAssociatedClass cs s a = some e → associationDot cs s a opts = "")) := by
  constructor <;> intro hopt hst <;>
    refine ⟨?_, ?_, ?_⟩ <;>
    first
      | simp [dotUmlClass, hopt, hst]
      | simp [addAssociationToDot, hopt, hst]
      | (intro hf; simp [associationDot, hf, addAssociationToDot, hopt, hst])

/-- Witness for C2 at a concrete Library entity with `hideLibraries` and a
concrete Interface entity with `hideInterfaces`. -/
theorem c2_hidden_stereotype_suppressed_witness :
    (dotUmlClass
        ⟨"L1", "Lib", "l.sol", [], ClassStereotype.Library, [], [], [], [], []⟩
        ⟨false, false, false, false, true, false⟩ = "" ∧
      addAssociationToDot
        ⟨"S1", "Src", "s.sol", [], ClassStereotype.None, [], [], [], [], []⟩
        ⟨"L1", "Lib", "l.sol", [], ClassStereotype.Library, [], [], [], [], []⟩
        ⟨ReferenceType.Storage, "Lib", false⟩
        ⟨false, false, false, false, true, false⟩ = "" ∧
      (findAssociatedClass []
          ⟨"S1", "Src", "s.sol", [], ClassStereotype.None, [], [], [], [], []⟩
          ⟨ReferenceType.Storage, "Lib", false⟩ =
          some ⟨"L1", "Lib", "l.sol", [], ClassStereotype.Library, [], [], [], [], []⟩ →
        associationDot []
          ⟨"S1", "Src", "s.sol", [], ClassStereotype.None, [], [], [], [], []⟩
          ⟨ReferenceType.Storage, "Lib", false⟩
          ⟨false, false, false, false, true, false⟩ = "")) ∧
    (dotUmlClass
        ⟨"I1", "Ifc", "i.sol", [], ClassStereotype.Interface, [], [], [], [], []⟩
        ⟨false, false, false, false, false, true⟩ = "" ∧
      addAssociationToDot
        ⟨"S1", "Src", "s.sol", [], ClassStereotype.None, [], [], [], [], []⟩
        ⟨"I1", "Ifc", "i.sol", [], ClassStereotype.Interface, [], [], [], [], []⟩
        ⟨ReferenceType.Storage, "Ifc", false⟩
        ⟨false, false, false, false, false, true⟩ = "" ∧
      (findAssociatedClass []
          ⟨"S1", "Src", "s.sol", [], ClassStereotype.None, [], [], [], [], []⟩
          ⟨ReferenceType.Storage, "Ifc", false⟩ =
          some ⟨"I1", "Ifc", "i.sol", [], ClassStereotype.Interface, [], [], [], [], []⟩ →
        associationDot []
          ⟨"S1", "Src", "s.sol", [], ClassStereotype.None, [], [], [], [], []⟩
          ⟨ReferenceType.Storage, "Ifc", false⟩
          ⟨false, false, false, false, false, true⟩ = "")) :=
  ⟨(c2_hidden_stereotype_suppressed
      ⟨false, false, false, false, true, false⟩
      ⟨"L1", "Lib", "l.sol", [], ClassStereotype.Library, [], [], [], [], []⟩
      ⟨"S1", "Src", "s.sol", [], ClassStereotype.None, [], [], [], [], []⟩
      ⟨ReferenceType.Storage, "Lib", false⟩ []).1 rfl rfl,
   (c2_hidden_stereotype_suppressed
      ⟨false, false, false, false, false, true⟩
      ⟨"I1", "Ifc", "i.sol", [], ClassStereotype.Interface, [], [], [], [], []⟩
      ⟨"S1", "Src", "s.sol", [], ClassStereotype.None, [], [], [], [], []⟩
      ⟨ReferenceType.Storage, "Ifc", false⟩ []).2 rfl rfl⟩

/-- C10: the abstract glyph is rendered before an Abstract-stereotyped
operator's name only when the owning class itself has the Abstract class
stereotype; otherwise only the separating space is rendered, while the Event,
Fallback, Modifier and Payable glyphs do not depend on the class
stereotype. -/
theorem c10_abstract_glyph_requires_abstract_class (uc : UmlClass) :
    (uc.stereotype = ClassStereotype.Abstract →
      dotOperatorStereotype uc OperatorStereotype.Abstract = "𝙖𝙗𝙨𝙩𝙧𝙖𝙘𝙩 ") ∧
    (uc.stereotype ≠ ClassStereotype.Abstract →
      dotOperatorStereotype uc OperatorStereotype.Abstract = " ") ∧
    dotOperatorStereotype uc OperatorStereotype.Event = "𝙚𝙫𝙚𝙣𝙩 " ∧
    dotOperatorStereotype uc OperatorStereotype.Fallback = "𝙛𝙖𝙡𝙡𝙗𝙖𝙘𝙠 " ∧
    dotOperatorStereotype uc OperatorStereotype.Modifier = "𝙢𝙤𝙙𝙞𝙛𝙞𝙚𝙧 " ∧
    dotOperatorStereotype uc OperatorStereotype.Payable = "𝙥𝙖𝙮𝙖𝙗𝙡𝙚 " := by
  refine ⟨?_, ?_, rfl, rfl, rfl, rfl⟩
  · intro h; simp [dotOperatorStereotype, h]
  · intro h
    have hb : (uc.stereotype == ClassStereotype.Abstract) = false :=
      beq_eq_false_iff_ne.mpr h
    simp [dotOperatorStereotype, hb]

/-- Witness for C10 at a concrete Abstract-stereotyped class and a concrete
Library-stereotyped class. -/
theorem c10_abstract_glyph_requires_abstract_class_witness :
    dotOperatorStereotype
      ⟨"A1", "A", "a.sol", [], ClassStereotype.Abstract, [], [], [], [], []⟩
      OperatorStereotype.Abstract = "𝙖𝙗𝙨𝙩𝙧𝙖𝙘𝙩 " ∧
    dotOperatorStereotype
      ⟨"B1", "B", "b.sol", [], ClassStereotype.Library, [], [], [], [], []⟩
      OperatorStereotype.Abstract = " " :=
  ⟨(c10_abstract_glyph_requires_abstract_class
      ⟨"A1", "A", "a.sol", [], ClassStereotype.Abstract, [], [], [], [], []⟩).1 rfl,
   (c10_abstract_glyph_requires_abstract_class
      ⟨"B1", "B", "b.sol", [], ClassStereotype.Library, [], [], [], [], []⟩).2.1
     (by decide)⟩

/-- Dashed-style condition in the words of the claim: the reference type is
Memory, or the association is a realization whose target entity has the
Interface stereotype. -/
def edgeDashed (association : Association) (targetUmlClass : UmlClass) : Bool :=
  association.referenceType == ReferenceType.Memory ||
  (association.realization &&
    targetUmlClass.stereotype == ClassStereotype.Interface)

/-- C7: every emitted association edge is dashed exactly under `edgeDashed`;
realization edges carry the empty arrowhead with weight 4 for untyped targets
and 3 otherwise; non-realization edges carry neither the arrowhead nor a
weight attribute. -/
theorem c7_edge_attributes (s t : UmlClass) (a : Association)
    (opts : ClassOptions)
    (hlib : ¬(opts.hideLibraries = true ∧ t.stereotype = ClassStereotype.Library))
    (hifc : ¬(opts.hideInterfaces = true ∧ t.stereotype = ClassStereotype.Interface)) :
    addAssociationToDot s t a opts =
      "\n" ++ s.id ++ " -> " ++ t.id ++ " [" ++
      (if edgeDashed a t then "style=dashed, " else "") ++
      (if a.realization then
        "arrowhead=empty, arrowsize=3, " ++
        (if t.stereotype = ClassStereotype.None then "weight=4, " else "weight=3, ")
      else "") ++ "]" ∧
    (edgeDashed a t = true ↔
      (a.referenceType = ReferenceType.Memory ∨
        (a.realization = true ∧ t.stereotype = ClassStereotype.Interface))) := by
  constructor
  · have hhid : ((opts.hideLibraries && t.stereotype == ClassStereotype.Library) ||
        (opts.hideInterfaces && t.stereotype == ClassStereotype.Interface)) = false := by
      rw [Bool.or_eq_false_iff, Bool.and_eq_false_iff, Bool.and_eq_false_iff]
      constructor
      · by_cases h : opts.hideLibraries = true
        · right
          rw [beq_eq_false_iff_ne]
          intro hc; exact hlib ⟨h, hc⟩
        · left; simpa using h
      · by_cases h : opts.hideInterfaces = true
        · right
          rw [beq_eq_false_iff_ne]
          intro hc; exact hifc ⟨h, hc⟩
        · left; simpa using h
    unfold addAssociationToDot edgeDashed
    rw [if_neg (by simp [hhid])]
    by_cases hm : a.referenceType = ReferenceType.Memory <;>
      by_cases hr : a.realization = true <;>
      by_cases hi : t.stereotype = ClassStereotype.Interface <;>
      by_cases hn : t.stereotype = ClassStereotype.None <;>
      simp [hm, hr, hi, hn, String.append_assoc]
  · simp [edgeDashed]

/-- Witness for C7 at a concrete realization edge to an Interface target (both
dashed and weight-3) under default options. -/
theorem c7_edge_attributes_witness :
    addAssociationToDot
      ⟨"S1", "Src", "s.sol", [], ClassStereotype.None, [], [], [], [], []⟩
      ⟨"T1", "Tgt", "t.sol", [], ClassStereotype.Interface, [], [], [], [], []⟩
      ⟨ReferenceType.Storage, "Tgt", true⟩ {} =
      "\n" ++ "S1" ++ " -> " ++ "T1" ++ " [" ++
      (if edgeDashed ⟨ReferenceType.Storage, "Tgt", true⟩
          ⟨"T1", "Tgt", "t.sol", [], ClassStereotype.Interface, [], [], [], [], []⟩ then
        "style=dashed, "
      else "") ++
      (if (true : Bool) then
        "arrowhead=empty, arrowsize=3, " ++
        (if (⟨"T1", "Tgt", "t.sol", [], ClassStereotype.Interface, [], [], [], [], []⟩ :
            UmlClass).stereotype = ClassStereotype.None then "weight=4, "
         else "weight=3, ")
      else "") ++ "]" :=
  (c7_edge_attributes
    ⟨"S1", "Src", "s.sol", [], ClassStereotype.None, [], [], [], [], []⟩
    ⟨"T1", "Tgt", "t.sol", [], ClassStereotype.Interface, [], [], [], [], []⟩
    ⟨ReferenceType.Storage, "Tgt", true⟩ {} (by decide) (by decide)).1

/-- C4: the attribute and operator sections are the four visibility tiers in
the fixed order Private, Internal, External, Public; every member with Public
or absent/None visibility lands in the Public tier; each member lands in
exactly one tier; and an empty tier contributes no heading text. -/
theorem c4_visibility_tiers (uc : UmlClass) :
    dotAttributeVisibilities uc =
      "| " ++
        dotAttributes "Private" (uc.attributes.filter (attributeInVizGroup "Private")) ++
        dotAttributes "Internal" (uc.attributes.filter (attributeInVizGroup "Internal")) ++
        dotAttributes "External" (uc.attributes.filter (attributeInVizGroup "External")) ++
        dotAttributes "Public" (uc.attributes.filter (attributeInVizGroup "Public")) ∧
    dotOperatorVisibilities uc =
      "| " ++
        dotOperators uc "Private" (uc.operators.filter (operatorInVizGroup "Private")) ++
        dotOperators uc "Internal" (uc.operators.filter (operatorInVizGroup "Internal")) ++
        dotOperators uc "External" (uc.operators.filter (operatorInVizGroup "External")) ++
        dotOperators uc "Public" (uc.operators.filter (operatorInVizGroup "Public")) ∧
    (∀ a : Attribute,
      attributeInVizGroup "Public" a = true ↔
        (a.visibility = Visibility.Public ∨ a.visibility = Visibility.None)) ∧
    (∀ a : Attribute,
      (["Private", "Internal", "External", "Public"].countP
        (fun vizGroup => attributeInVizGroup vizGroup a)) = 1) ∧
    (∀ o : Operator,
      operatorInVizGroup "Public" o = true ↔
        (o.visibility = Visibility.Public ∨ o.visibility = Visibility.None)) ∧
    (∀ o : Operator,
      (["Private", "Internal", "External", "Public"].countP
        (fun vizGroup => operatorInVizGroup vizGroup o)) = 1) ∧
    (∀ vizGroup : String, dotAttributes vizGroup [] = "") ∧
    (∀ (uc2 : UmlClass) (vizGroup : String), dotOperators uc2 vizGroup [] = "") := by
  refine ⟨rfl, rfl, ?_, ?_, ?_, ?_, fun _ => rfl, fun _ _ => rfl⟩
  · intro a; cases h : a.visibility <;> simp [attributeInVizGroup, h]
  · intro a
    cases h : a.visibility <;>
      simp [List.countP, List.countP.go, attributeInVizGroup, h] <;> decide
  · intro o; cases h : o.visibility <;> simp [operatorInVizGroup, h]
  · intro o
    cases h : o.visibility <;>
      simp [List.countP, List.countP.go, operatorInVizGroup, h] <;> decide

/-- C3: the dot renderer is a pure function of the entity list, the options
and the counter state, so two renders of the same inputs with the counter
reset to the same value yield byte-identical text; moreover, because the
source sorts the caller's array in place, the second of two successive
renders actually receives the sorted array, and its output is still
byte-identical because the sort is idempotent. -/
theorem c3_render_deterministic (umlClasses : List UmlClass)
    (clusterFolders : Bool) (classOptions : ClassOptions) (subGraphCount : Nat) :
    convertUmlClasses2Dot umlClasses clusterFolders classOptions subGraphCount =
      convertUmlClasses2Dot umlClasses clusterFolders classOptions subGraphCount ∧
    convertUmlClasses2Dot (sortUmlClassesByCodePath umlClasses) clusterFolders
        classOptions subGraphCount =
      convertUmlClasses2Dot umlClasses clusterFolders classOptions subGraphCount := by
  refine ⟨rfl, ?_⟩
  unfold convertUmlClasses2Dot
  rw [sortUmlClassesByCodePath_idem]

/-- C1: an association's edge targets exactly the first entity in list order
whose name equals the association's target class name and whose `codePath` is
imported by the source or equal to the source's `codePath`. -/
theorem c1_first_matching_entity_wins (s t : UmlClass) (a : Association)
    (l₁ l₂ : List UmlClass) (opts : ClassOptions)
    (ht : associationMatch s a t = true)
    (hfirst : ∀ u ∈ l₁, associationMatch s a u = false) :
    findAssociatedClass (l₁ ++ t :: l₂) s a = some t ∧
    associationDot (l₁ ++ t :: l₂) s a opts = addAssociationToDot s t a opts ∧
    (∀ u : UmlClass,
      associationMatch s a u = true ↔
        (u.name = a.targetUmlClassName ∧
          (u.codePath ∈ s.importedPaths ∨ s.codePath = u.codePath))) := by
  have hf : findAssociatedClass (l₁ ++ t :: l₂) s a = some t :=
    find?_append_first (associationMatch s a) l₁ l₂ t ht hfirst
  refine ⟨hf, ?_, ?_⟩
  · unfold associationDot
    rw [hf]
  · intro u
    simp [associationMatch]

/-- Witness for C1: two entities named Foo in files A.sol and B.sol, and a
source entity in C.sol importing only A.sol; the edge targets the Foo of
A.sol. -/
theorem c1_first_matching_entity_wins_witness :
    findAssociatedClass
      [⟨"C1", "C", "C.sol", ["A.sol"], ClassStereotype.None, [], [], [], [],
          [⟨ReferenceType.Storage, "Foo", false⟩]⟩,
        ⟨"A1", "Foo", "A.sol", [], ClassStereotype.None, [], [], [], [], []⟩,
        ⟨"B1", "Foo", "B.sol", [], ClassStereotype.None, [], [], [], [], []⟩]
      ⟨"C1", "C", "C.sol", ["A.sol"], ClassStereotype.None, [], [], [], [],
        [⟨ReferenceType.Storage, "Foo", false⟩]⟩
      ⟨ReferenceType.Storage, "Foo", false⟩ =
      some ⟨"A1", "Foo", "A.sol", [], ClassStereotype.None, [], [], [], [], []⟩ ∧
    associationDot
      [⟨"C1", "C", "C.sol", ["A.sol"], ClassStereotype.None, [], [], [], [],
          [⟨ReferenceType.Storage, "Foo", false⟩]⟩,
        ⟨"A1", "Foo", "A.sol", [], ClassStereotype.None, [], [], [], [], []⟩,
        ⟨"B1", "Foo", "B.sol", [], ClassStereotype.None, [], [], [], [], []⟩]
      ⟨"C1", "C", "C.sol", ["A.sol"], ClassStereotype.None, [], [], [], [],
        [⟨ReferenceType.Storage, "Foo", false⟩]⟩
      ⟨ReferenceType.Storage, "Foo", false⟩ {} =
      addAssociationToDot
        ⟨"C1", "C", "C.sol", ["A.sol"], ClassStereotype.None, [], [], [], [],
          [⟨ReferenceType.Storage, "Foo", false⟩]⟩
        ⟨"A1", "Foo", "A.sol", [], ClassStereotype.None, [], [], [], [], []⟩
        ⟨ReferenceType.Storage, "Foo", false⟩ {} :=
  ⟨(c1_first_matching_entity_wins
      ⟨"C1", "C", "C.sol", ["A.sol"], ClassStereotype.None, [], [], [], [],
        [⟨ReferenceType.Storage, "Foo", false⟩]⟩
      ⟨"A1", "Foo", "A.sol", [], ClassStereotype.None, [], [], [], [], []⟩
      ⟨ReferenceType.Storage, "Foo", false⟩
      [⟨"C1", "C", "C.sol", ["A.sol"], ClassStereotype.None, [], [], [], [],
        [⟨ReferenceType.Storage, "Foo", false⟩]⟩]
      [⟨"B1", "Foo", "B.sol", [], ClassStereotype.None, [], [], [], [], []⟩]
      {} (by decide) (by decide)).1,
   (c1_first_matching_entity_wins
      ⟨"C1", "C", "C.sol", ["A.sol"], ClassStereotype.None, [], [], [], [],
        [⟨ReferenceType.Storage, "Foo", false⟩]⟩
      ⟨"A1", "Foo", "A.sol", [], ClassStereotype.None, [], [], [], [], []⟩
      ⟨ReferenceType.Storage, "Foo", false⟩
      [⟨"C1", "C", "C.sol", ["A.sol"], ClassStereotype.None, [], [], [], [],
        [⟨ReferenceType.Storage, "Foo", false⟩]⟩]
      [⟨"B1", "Foo", "B.sol", [], ClassStereotype.None, [], [], [], [], []⟩]
      {} (by decide) (by decide)).2.1⟩

theorem associationMatch_target_fields (src : UmlClass) (a : Association)
    (u u' : UmlClass) (hname : u'.name = u.name)
    (hpath : u'.codePath = u.codePath) :
    associationMatch src a u' = associationMatch src a u := by
  unfold associationMatch
  rw [hname, hpath]

theorem addAssociationToDot_target_fields (src : UmlClass) (a : Association)
    (opts : ClassOptions) (u u' : UmlClass) (hid : u'.id = u.id)
    (hst : u'.stereotype = u.stereotype) :
    addAssociationToDot src u' a opts = addAssociationToDot src u a opts := by
  unfold addAssociationToDot
  rw [hid, hst]

theorem associationDot_src_fields (cs : List UmlClass) (src src' : UmlClass)
    (a : Association) (opts : ClassOptions)
    (himp : src'.importedPaths = src.importedPaths)
    (hpath : src'.codePath = src.codePath) (hid : src'.id = src.id) :
    associationDot cs src' a opts = associationDot cs src a opts := by
  unfold associationDot findAssociatedClass
  have hpred : associationMatch src' a = associationMatch src a := by
    funext u
    unfold associationMatch
    rw [himp, hpath]
  rw [hpred]
  cases cs.find? (associationMatch src a) with
  | none => rfl
  | some u =>
    unfold addAssociationToDot
    rw [hid]

theorem associationDot_replace (s s' : UmlClass) (hname : s'.name = s.name)
    (hpath : s'.codePath = s.codePath) (hid : s'.id = s.id)
    (hst : s'.stereotype = s.stereotype) :
    ∀ (pre post : List UmlClass) (src : UmlClass) (a : Association)
      (opts : ClassOptions),
      associationDot (pre ++ s :: post) src a opts =
        associationDot (pre ++ s' :: post) src a opts := by
  intro pre post src a opts
  unfold associationDot findAssociatedClass
  induction pre with
  | nil =>
    simp only [List.nil_append]
    by_cases hm : associationMatch src a s = true
    · have hm' : associationMatch src a s' = true := by
        rw [associationMatch_target_fields src a s s' hname hpath]
        exact hm
      rw [List.find?_cons_of_pos _ hm, List.find?_cons_of_pos _ hm']
      exact (addAssociationToDot_target_fields src a opts s s' hid hst).symm
    · have hm' : ¬ associationMatch src a s' = true := by
        rw [associationMatch_target_fields src a s s' hname hpath]
        exact hm
      rw [List.find?_cons_of_neg _ hm, List.find?_cons_of_neg _ hm']
  | cons x pre ih =>
    simp only [List.cons_append]
    by_cases hx : associationMatch src a x = true
    · rw [List.find?_cons_of_pos _ hx, List.find?_cons_of_pos _ hx]
    · rw [List.find?_cons_of_neg _ hx, List.find?_cons_of_neg _ hx]
      exact ih

/-- C8: when an association's target class name matches no entity under the
resolution rule, no edge is emitted and the output is exactly what it would be
if that association were absent from the source entity. -/
theorem c8_unmatched_association_dropped (pre post : List UmlClass)
    (s : UmlClass) (a : Association) (l₁ l₂ : List Association)
    (opts : ClassOptions) (hassoc : s.associations = l₁ ++ a :: l₂)
    (hnone : findAssociatedClass (pre ++ s :: post) s a = none) :
    addAssociationsToDot (pre ++ s :: post) opts =
      addAssociationsToDot (pre ++ { s with associations := l₁ ++ l₂ } :: post)
        opts := by
  have hrep := associationDot_replace s { s with associations := l₁ ++ l₂ }
    rfl rfl rfl rfl pre post
  rw [addAssociationsToDot_join, addAssociationsToDot_join]
  have hFF : ∀ u : UmlClass,
      joinStrings (u.associations.map
        (fun x => associationDot (pre ++ s :: post) u x opts)) =
      joinStrings (u.associations.map
        (fun x => associationDot
          (pre ++ { s with associations := l₁ ++ l₂ } :: post) u x opts)) := by
    intro u
    congr 1
    exact List.map_congr_left (fun x _ => hrep u x opts)
  have hsrc : ∀ x : Association,
      associationDot (pre ++ { s with associations := l₁ ++ l₂ } :: post)
        { s with associations := l₁ ++ l₂ } x opts =
      associationDot (pre ++ { s with associations := l₁ ++ l₂ } :: post)
        s x opts :=
    fun x => associationDot_src_fields _ s _ x opts rfl rfl rfl
  have hcenter :
      joinStrings (s.associations.map
        (fun x => associationDot (pre ++ s :: post) s x opts)) =
      joinStrings (({ s with associations := l₁ ++ l₂ } : UmlClass).associations.map
        (fun x => associationDot
          (pre ++ { s with associations := l₁ ++ l₂ } :: post)
          { s with associations := l₁ ++ l₂ } x opts)) := by
    show joinStrings (s.associations.map
        (fun x => associationDot (pre ++ s :: post) s x opts)) =
      joinStrings ((l₁ ++ l₂).map
        (fun x => associationDot
          (pre ++ { s with associations := l₁ ++ l₂ } :: post)
          { s with associations := l₁ ++ l₂ } x opts))
    rw [hassoc]
    rw [List.map_congr_left (fun x _ => (hrep s x opts).trans (hsrc x).symm)]
    rw [List.map_append, List.map_append, joinStrings_append, joinStrings_append,
      List.map_cons]
    have hzero : associationDot
        (pre ++ { s with associations := l₁ ++ l₂ } :: post)
        { s with associations := l₁ ++ l₂ } a opts = "" := by
      rw [hsrc a, ← hrep s a opts]
      unfold associationDot
      rw [hnone]
    rw [joinStrings, hzero, String.empty_append]
  simp only [List.map_append, List.map_cons, joinStrings_append, joinStrings]
  rw [List.map_congr_left (fun u _ => hFF u),
    List.map_congr_left (fun u _ => hFF u) (l := post), hcenter]
  simp only [List.map_append, joinStrings_append]

/-- Witness for C8: a single entity whose one association targets a name
matching no entity; dropping it leaves the association text unchanged. -/
theorem c8_unmatched_association_dropped_witness :
    addAssociationsToDot
      [⟨"S1", "S", "s.sol", [], ClassStereotype.None, [], [], [], [],
        [⟨ReferenceType.Storage, "Nope", false⟩]⟩] {} =
    addAssociationsToDot
      [⟨"S1", "S", "s.sol", [], ClassStereotype.None, [], [], [], [], []⟩] {} :=
  c8_unmatched_association_dropped [] []
    ⟨"S1", "S", "s.sol", [], ClassStereotype.None, [], [], [], [],
      [⟨ReferenceType.Storage, "Nope", false⟩]⟩
    ⟨ReferenceType.Storage, "Nope", false⟩ [] [] {} rfl (by decide)

theorem operatorOrd_trans (a b c : Operator)
    (hab : decide (b.stereotype.ordinal ≤ a.stereotype.ordinal) = true)
    (hbc : decide (c.stereotype.ordinal ≤ b.stereotype.ordinal) = true) :
    decide (c.stereotype.ordinal ≤ a.stereotype.ordinal) = true := by
  simp only [decide_eq_true_eq] at *
  exact le_trans hbc hab

theorem operatorOrd_total (a b : Operator) :
    (decide (b.stereotype.ordinal ≤ a.stereotype.ordinal) ||
      decide (a.stereotype.ordinal ≤ b.stereotype.ordinal)) = true := by
  simp only [Bool.or_eq_true, decide_eq_true_eq]
  exact le_total _ _

/-- C5: within a tier the rendered operators appear in descending order of
`operatorStereotype` ordinal, and operators with equal stereotype keep their
original relative order (the sort is stable). -/
theorem c5_operator_ordering (uc : UmlClass) (vizGroup : String)
    (ops : List Operator) (hne : ops ≠ []) :
    dotOperators uc vizGroup ops =
      vizGroup ++ ":\\l" ++
        joinStrings ((sortOperatorsByStereotype ops).map (dotOperatorLine uc)) ∧
    (sortOperatorsByStereotype ops).Pairwise
      (fun a b => b.stereotype.ordinal ≤ a.stereotype.ordinal) ∧
    (∀ st : OperatorStereotype,
      (sortOperatorsByStereotype ops).filter (fun o => o.stereotype == st) =
        ops.filter (fun o => o.stereotype == st)) := by
  refine ⟨?_, ?_, ?_⟩
  · unfold dotOperators
    rw [if_neg (by simpa using hne),
      foldl_append_eq_joinStrings (dotOperatorLine uc), String.append_assoc]
  · have h := @List.sorted_mergeSort Operator
      (fun a b => decide (b.stereotype.ordinal ≤ a.stereotype.ordinal))
      operatorOrd_trans operatorOrd_total ops
    exact h.imp (fun hab => of_decide_eq_true hab)
  · intro st
    apply mergeSort_filter_stable operatorOrd_trans operatorOrd_total
    intro a b ha hb
    have ha' : a.stereotype = st := by simpa using ha
    have hb' : b.stereotype = st := by simpa using hb
    simp [ha', hb']

/-- Witness for C5: a Payable-stereotyped operator is rendered before two
plain operators that keep their original order. -/
theorem c5_operator_ordering_witness :
    dotOperators
      ⟨"X1", "X", "x.sol", [], ClassStereotype.None, [], [], [], [], []⟩
      "Public"
      [⟨"f", [], [], Visibility.Public, OperatorStereotype.None⟩,
        ⟨"g", [], [], Visibility.Public, OperatorStereotype.Payable⟩,
        ⟨"h", [], [], Visibility.Public, OperatorStereotype.None⟩] =
      "Public" ++ ":\\l" ++
        joinStrings
          ((sortOperatorsByStereotype
              [⟨"f", [], [], Visibility.Public, OperatorStereotype.None⟩,
                ⟨"g", [], [], Visibility.Public, OperatorStereotype.Payable⟩,
                ⟨"h", [], [], Visibility.Public, OperatorStereotype.None⟩]).map
            (dotOperatorLine
              ⟨"X1", "X", "x.sol", [], ClassStereotype.None, [], [], [], [], []⟩)) :=
  (c5_operator_ordering
    ⟨"X1", "X", "x.sol", [], ClassStereotype.None, [], [], [], [], []⟩
    "Public"
    [⟨"f", [], [], Visibility.Public, OperatorStereotype.None⟩,
      ⟨"g", [], [], Visibility.Public, OperatorStereotype.Payable⟩,
      ⟨"h", [], [], Visibility.Public, OperatorStereotype.None⟩]
    (by decide)).1

theorem takeWhile_dirname_empty (cs : List UmlClass) :
    cs.takeWhile (fun d => dirname d.codePath == "") = [] := by
  cases cs with
  | nil => rfl
  | cons c rest =>
    rw [List.takeWhile_cons]
    have h : (dirname c.codePath == "") = false :=
      beq_eq_false_iff_ne.mpr (dirname_ne_empty _)
    simp [h]

theorem dropWhile_dirname_empty (cs : List UmlClass) :
    cs.dropWhile (fun d => dirname d.codePath == "") = cs := by
  cases cs with
  | nil => rfl
  | cons c rest =>
    rw [List.dropWhile_cons]
    have h : (dirname c.codePath == "") = false :=
      beq_eq_false_iff_ne.mpr (dirname_ne_empty _)
    simp [h]

/-- C6: the renderer sorts the entities lexicographically by `codePath`, opens
exactly one subgraph block per maximal consecutive run of entities in the same
folder, labels each block with the folder path, and assigns each block a name
with a strictly increasing counter value, so the subgraph names of one render
are pairwise distinct. -/
theorem c6_subgraph_blocks (umlClasses : List UmlClass) (clusterFolders : Bool)
    (classOptions : ClassOptions) (subGraphCount : Nat) :
    (convertUmlClasses2Dot umlClasses clusterFolders classOptions subGraphCount).1 =
      "\ndigraph UmlClassDiagram \x7b\nrankdir=BT\ncolor=black\narrowhead=open\nnode [shape=record, style=filled, fillcolor=gray95]" ++
        (convertClassesBody clusterFolders classOptions
          (sortUmlClassesByCodePath umlClasses) "" subGraphCount).1 ++
        addAssociationsToDot (sortUmlClassesByCodePath umlClasses) classOptions ++
        "\n\x7d" ∧
    (sortUmlClassesByCodePath umlClasses).Pairwise
      (fun a b => a.codePath ≤ b.codePath) ∧
    (convertClassesBody clusterFolders classOptions
        (sortUmlClassesByCodePath umlClasses) "" subGraphCount).1 =
      renderBlocks clusterFolders classOptions subGraphCount
        (folderRuns (sortUmlClassesByCodePath umlClasses)) ∧
    ((folderRuns (sortUmlClassesByCodePath umlClasses)).map Prod.snd).flatten =
      sortUmlClassesByCodePath umlClasses ∧
    (∀ pr ∈ folderRuns (sortUmlClassesByCodePath umlClasses),
      pr.2 ≠ [] ∧ ∀ u ∈ pr.2, dirname u.codePath = pr.1) ∧
    (folderRuns (sortUmlClassesByCodePath umlClasses)).Chain'
      (fun a b => a.1 ≠ b.1) ∧
    (convertClassesBody clusterFolders classOptions
        (sortUmlClassesByCodePath umlClasses) "" subGraphCount).2 =
      subGraphCount + (folderRuns (sortUmlClassesByCodePath umlClasses)).length ∧
    ((List.range' subGraphCount
        (folderRuns (sortUmlClassesByCodePath umlClasses)).length).map
      (getSubGraphName clusterFolders)).Nodup := by
  refine ⟨rfl, sortUmlClassesByCodePath_pairwise _, ?_, folderRuns_flatten _,
    folderRuns_runs _, folderRuns_chain _, ?_, ?_⟩
  · rw [convertClassesBody_eq]
    simp [takeWhile_dirname_empty, dropWhile_dirname_empty, joinStrings]
  · rw [convertClassesBody_eq]
    rw [dropWhile_dirname_empty]
  · exact List.Nodup.map
      (fun m n h => getSubGraphName_injective clusterFolders h)
      (List.nodup_range' _ _)

/-- C9 counterexample: with a file system on which every write fails, an
export in dot format still returns success to its caller; the wrapped error
naming the dot file is only thrown inside the asynchronous `fs.writeFile`
callback (the uncaught-exception channel), so the claim that dot-file write
failures propagate to the caller of the export operation is false. -/
theorem c9_dot_write_failure_returns_ok :
    (generateFilesFromUmlClasses (fun _ _ => some "EACCES") (fun s => s) []
      OutputFormat.dot "out.dot" false {}).returned = Except.ok () ∧
    (generateFilesFromUmlClasses (fun _ _ => some "EACCES") (fun s => s) []
      OutputFormat.dot "out.dot" false {}).uncaught =
      [⟨"Failed to write Dot file to out.dot", "EACCES"⟩] :=
  ⟨rfl, rfl⟩

/-- C9 (amended): a failure while writing the svg file is wrapped in an error
naming the target path and propagates to the caller of the export operation;
a failure while writing the dot file is wrapped in an error naming the target
path, but it is thrown inside the asynchronous write callback after the
export operation has returned, so the caller still observes success. -/
theorem c9_write_failure_wrapping (fs : FileWriteOutcome)
    (viz : String → String) (umlClasses : List UmlClass) (fname : String)
    (clusterFolders : Bool) (classOptions : ClassOptions) (err : String) :
    (∀ svg : String, fs fname svg = some err →
      writeSVG fs svg fname =
        Except.error ⟨"Failed to write SVG file to " ++ fname, err⟩) ∧
    (∀ dot : String, fs fname dot = some err →
      writeDot fs dot fname =
        ((), some ⟨"Failed to write Dot file to " ++ fname, err⟩)) ∧
    (fs fname
        (viz (convertUmlClasses2Dot umlClasses clusterFolders classOptions 0).1) =
        some err →
      (generateFilesFromUmlClasses fs viz umlClasses OutputFormat.svg fname
          clusterFolders classOptions).returned =
        Except.error ⟨"Failed to write SVG file to " ++ fname, err⟩) ∧
    (fs fname (convertUmlClasses2Dot umlClasses clusterFolders classOptions 0).1 =
        some err →
      (generateFilesFromUmlClasses fs viz umlClasses OutputFormat.dot fname
          clusterFolders classOptions).returned = Except.ok () ∧
      (generateFilesFromUmlClasses fs viz umlClasses OutputFormat.dot fname
          clusterFolders classOptions).uncaught =
        [⟨"Failed to write Dot file to " ++ fname, err⟩]) := by
  refine ⟨?_, ?_, ?_, ?_⟩
  · intro svg h; unfold writeSVG; rw [h]
  · intro dot h; unfold writeDot; rw [h]
  · intro h
    simp [generateFilesFromUmlClasses, writeSVG, h]
  · intro h
    constructor <;> simp [generateFilesFromUmlClasses, writeDot, h]

/-- Witness for the amended C9 at a concrete failing file system. -/
theorem c9_write_failure_wrapping_witness :
    writeSVG (fun _ _ => some "ENOSPC") "svgtext" "c.svg" =
      Except.error ⟨"Failed to write SVG file to " ++ "c.svg", "ENOSPC"⟩ ∧
    writeDot (fun _ _ => some "ENOSPC") "dottext" "c.dot" =
      ((), some ⟨"Failed to write Dot file to " ++ "c.dot", "ENOSPC"⟩) :=
  ⟨(c9_write_failure_wrapping (fun _ _ => some "ENOSPC") (fun s => s) []
      "c.svg" false {} "ENOSPC").1 "svgtext" rfl,
   (c9_write_failure_wrapping (fun _ _ => some "ENOSPC") (fun s => s) []
      "c.dot" false {} "ENOSPC").2.1 "dottext" rfl⟩
